import Mathlib

/-
Verification of the AutoXShift swap-orchestration core against its
natural-language specification.

The definitions below are a shallow embedding of the TypeScript source:
  * backend/src/services/swapService.ts   (gateway client, saveSwap upsert)
  * backend/src/database/schema.sql       (swaps table, unique shift_id index)
  * backend/src/routes/swap.ts            (POST /shift and GET /status handlers)
  * services/websocketService.ts          (realtime broker)
  * services/cacheService.ts              (redis cache port)

Database timestamps (CURRENT_TIMESTAMP) are modelled by an explicit `now : Nat`
parameter; the external exchange transport is modelled as a function from the
attempt number to an outcome.  Floating-point derived columns (`rate`, `fee`)
are omitted from the row model: no claim mentions them and their values are
computed with JS floats.
-/

namespace AutoXShift

/-! ## Swap lifecycle store

`ShiftStatus` embeds the application-level interface returned by the gateway
client (swapService.ts lines 91-107).  `SwapRow` embeds one row of the `swaps`
table (schema.sql lines 26-48); `shift_id` carries a unique index
(`idx_swaps_shift_id`). -/

structure ShiftStatus where
  shiftId : String
  status : String
  depositCoin : String
  depositNetwork : String
  settleCoin : String
  settleNetwork : String
  depositAmount : String
  settleAmount : String
  depositAddress : String
  settleAddress : String
  depositTxHash : Option String
  settleTxHash : Option String
  createdAt : Nat
  updatedAt : Nat
deriving Repr, DecidableEq

structure SwapRow where
  userId : String
  shiftId : String
  fromToken : String
  fromNetwork : String
  toToken : String
  toNetwork : String
  amountIn : String
  amountOut : String
  depositAddress : String
  settleAddress : String
  status : String
  depositTxHash : Option String
  settleTxHash : Option String
  createdAt : Nat
  updatedAt : Nat
  completedAt : Option Nat
deriving Repr, DecidableEq

/-- The row written by the INSERT arm of `saveSwap` (swapService.ts 597-601,
601-624): `completed_at` is not in the column list, so a fresh insert leaves it
NULL; `created_at` and `updated_at` take the schema default CURRENT_TIMESTAMP. -/
def insertRow (now : Nat) (userId : String) (shift : ShiftStatus) : SwapRow :=
  { userId := userId
    shiftId := shift.shiftId
    fromToken := shift.depositCoin
    fromNetwork := shift.depositNetwork
    toToken := shift.settleCoin
    toNetwork := shift.settleNetwork
    amountIn := shift.depositAmount
    amountOut := shift.settleAmount
    depositAddress := shift.depositAddress
    settleAddress := shift.settleAddress
    status := shift.status
    depositTxHash := shift.depositTxHash
    settleTxHash := shift.settleTxHash
    createdAt := now
    updatedAt := now
    completedAt := none }

/-- The ON CONFLICT (shift_id) DO UPDATE arm of `saveSwap`
(swapService.ts 602-607): status and tx hashes come from the excluded row,
`updated_at` is stamped, and
`completed_at = CASE WHEN EXCLUDED.status = 'complete'
                THEN CURRENT_TIMESTAMP ELSE swaps.completed_at END`.
All other columns (in particular `created_at` and `user_id`) are untouched. -/
def conflictUpdate (now : Nat) (shift : ShiftStatus) (r : SwapRow) : SwapRow :=
  { r with
    status := shift.status
    depositTxHash := shift.depositTxHash
    settleTxHash := shift.settleTxHash
    updatedAt := now
    completedAt := if shift.status = "complete" then some now else r.completedAt }

/-- `saveSwap`'s single statement:
`INSERT INTO swaps ... ON CONFLICT (shift_id) DO UPDATE SET ...`
over a table with a unique index on `shift_id`: if a row with the incoming
shift identifier exists it is updated in place, otherwise a new row is
appended. -/
def upsertSwap (now : Nat) (userId : String) (shift : ShiftStatus)
    (table : List SwapRow) : List SwapRow :=
  if table.any (fun r => r.shiftId == shift.shiftId) then
    table.map (fun r => if r.shiftId == shift.shiftId then conflictUpdate now shift r else r)
  else
    table ++ [insertRow now userId shift]

/-- The rows of the table carrying a given shift identifier. -/
def rowsFor (sid : String) (table : List SwapRow) : List SwapRow :=
  table.filter (fun r => r.shiftId == sid)

lemma any_shiftId_eq_false {sid : String} {table : List SwapRow}
    (h : ∀ r ∈ table, r.shiftId ≠ sid) :
    table.any (fun r => r.shiftId == sid) = false := by
  simp only [List.any_eq_false, beq_iff_eq]
  exact h

lemma rowsFor_eq_nil {sid : String} {table : List SwapRow}
    (h : ∀ r ∈ table, r.shiftId ≠ sid) : rowsFor sid table = [] := by
  simp only [rowsFor, List.filter_eq_nil_iff, beq_iff_eq]
  exact h

lemma map_update_eq_self {sid : String} {table : List SwapRow}
    (h : ∀ r ∈ table, r.shiftId ≠ sid) (f : SwapRow → SwapRow) :
    table.map (fun r => if r.shiftId == sid then f r else r) = table := by
  induction table with
  | nil => rfl
  | cons x xs ih =>
    have hx : x.shiftId ≠ sid := h x (by simp)
    simp only [List.map_cons, List.cons.injEq]
    constructor
    · simp [hx]
    · exact ih (fun r hr => h r (by simp [hr]))

lemma upsert_insert {now : Nat} {u : String} {s : ShiftStatus} {table : List SwapRow}
    (h : ∀ r ∈ table, r.shiftId ≠ s.shiftId) :
    upsertSwap now u s table = table ++ [insertRow now u s] := by
  simp [upsertSwap, any_shiftId_eq_false h]

lemma rowsFor_append (sid : String) (t1 t2 : List SwapRow) :
    rowsFor sid (t1 ++ t2) = rowsFor sid t1 ++ rowsFor sid t2 := by
  simp [rowsFor, List.filter_append]

/-- A concrete shift record used by witnesses and counterexamples. -/
def sampleShift (st : String) : ShiftStatus :=
  { shiftId := "shift-1", status := st,
    depositCoin := "BTC", depositNetwork := "bitcoin",
    settleCoin := "ETH", settleNetwork := "ethereum",
    depositAmount := "0.001", settleAmount := "0.0152",
    depositAddress := "dep-addr", settleAddress := "set-addr",
    depositTxHash := none, settleTxHash := none,
    createdAt := 0, updatedAt := 0 }

/-- C1: for every shift identifier, calling the store's upsert (`saveSwap`)
twice with the same identifier never produces two records for that identifier;
the final record's status is the one written last, and its creation time is
the one set by the first insert, unchanged by the later upsert. -/
theorem upsertSwap_twice_single_record
    (table : List SwapRow) (now1 now2 : Nat) (u1 u2 : String)
    (s1 s2 : ShiftStatus)
    (hid : s2.shiftId = s1.shiftId)
    (hfresh : ∀ r ∈ table, r.shiftId ≠ s1.shiftId) :
    ∃ r, rowsFor s1.shiftId (upsertSwap now2 u2 s2 (upsertSwap now1 u1 s1 table)) = [r]
      ∧ r.status = s2.status ∧ r.createdAt = now1 := by
  have h1 : upsertSwap now1 u1 s1 table = table ++ [insertRow now1 u1 s1] :=
    upsert_insert hfresh
  have hins : (insertRow now1 u1 s1).shiftId = s1.shiftId := rfl
  have hany : (table ++ [insertRow now1 u1 s1]).any
      (fun r => r.shiftId == s2.shiftId) = true := by
    simp [List.any_append, hins, hid]
  have h2 : upsertSwap now2 u2 s2 (table ++ [insertRow now1 u1 s1]) =
      (table ++ [insertRow now1 u1 s1]).map
        (fun r => if r.shiftId == s2.shiftId then conflictUpdate now2 s2 r else r) := by
    simp [upsertSwap, hany]
  refine ⟨conflictUpdate now2 s2 (insertRow now1 u1 s1), ?_, rfl, rfl⟩
  rw [h1, h2, List.map_append]
  have hfresh2 : ∀ r ∈ table, r.shiftId ≠ s2.shiftId := by
    intro r hr
    rw [hid]
    exact hfresh r hr
  rw [map_update_eq_self hfresh2]
  have hmap : ([insertRow now1 u1 s1].map
      (fun r => if r.shiftId == s2.shiftId then conflictUpdate now2 s2 r else r)) =
      [conflictUpdate now2 s2 (insertRow now1 u1 s1)] := by
    simp [hins, hid]
  rw [hmap, rowsFor_append, rowsFor_eq_nil hfresh]
  simp [rowsFor, conflictUpdate, insertRow, hid]

/-- C1 witness: concrete double upsert of shift "shift-1", first with status
"awaiting_deposit" at time 1, then with status "complete" at time 2. -/
theorem upsertSwap_twice_single_record_witness :
    ∃ r, rowsFor (sampleShift "complete").shiftId
        (upsertSwap 2 "alice" (sampleShift "complete")
          (upsertSwap 1 "alice" (sampleShift "awaiting_deposit") [])) = [r]
      ∧ r.status = (sampleShift "complete").status ∧ r.createdAt = 1 := by
  have h := upsertSwap_twice_single_record [] 1 2 "alice" "alice"
    (sampleShift "awaiting_deposit") (sampleShift "complete") rfl
    (by intro r hr; cases hr)
  exact h

lemma conflictUpdate_shiftId (now : Nat) (s : ShiftStatus) (r : SwapRow) :
    (conflictUpdate now s r).shiftId = r.shiftId := rfl

lemma rowsFor_map_conflictUpdate (now : Nat) (s : ShiftStatus) (table : List SwapRow) :
    rowsFor s.shiftId
        (table.map (fun r => if r.shiftId == s.shiftId then conflictUpdate now s r else r))
      = (rowsFor s.shiftId table).map (conflictUpdate now s) := by
  simp only [rowsFor]
  induction table with
  | nil => rfl
  | cons x xs ih =>
    simp only [List.map_cons, List.filter_cons]
    by_cases hx : (x.shiftId == s.shiftId) = true
    · simp [hx, conflictUpdate_shiftId]
      simpa using ih
    · have hx' : (x.shiftId == s.shiftId) = false := by simpa using hx
      simp [hx']
      simpa using ih

lemma any_of_rowsFor_eq_cons {sid : String} {table : List SwapRow} {r : SwapRow}
    {l : List SwapRow} (h : rowsFor sid table = r :: l) :
    table.any (fun x => x.shiftId == sid) = true := by
  have hr : r ∈ rowsFor sid table := by rw [h]; exact List.mem_cons_self r l
  rw [rowsFor, List.mem_filter] at hr
  exact List.any_eq_true.2 ⟨r, hr.1, hr.2⟩

lemma upsert_update {now : Nat} {u : String} {s : ShiftStatus} {table : List SwapRow}
    (h : table.any (fun r => r.shiftId == s.shiftId) = true) :
    upsertSwap now u s table =
      table.map (fun r => if r.shiftId == s.shiftId then conflictUpdate now s r else r) := by
  simp [upsertSwap, h]

/-- C2 counterexample tables: shift "shift-1" inserted at time 1 with status
"awaiting_deposit", upserted to "complete" at time 2, then upserted with
status "complete" again at time 3. -/
def c2Table2 : List SwapRow :=
  upsertSwap 2 "alice" (sampleShift "complete")
    (upsertSwap 1 "alice" (sampleShift "awaiting_deposit") [])

def c2Table3 : List SwapRow :=
  upsertSwap 3 "alice" (sampleShift "complete") c2Table2

/-- C2 counterexample: the claim says a further upsert with status `complete`
leaves `completed_at` unchanged, but the ON CONFLICT CASE only tests the
incoming status, so the third upsert (status `complete` again, at time 3)
overwrites `completed_at` from 2 to 3. -/
theorem saveSwap_completedAt_overwritten :
    (rowsFor "shift-1" c2Table2).map SwapRow.completedAt = [some 2]
    ∧ (rowsFor "shift-1" c2Table3).map SwapRow.completedAt = [some 3]
    ∧ (rowsFor "shift-1" c2Table3).map SwapRow.completedAt
        ≠ (rowsFor "shift-1" c2Table2).map SwapRow.completedAt := by
  decide

/-- C2 amended: on a conflicting upsert, `completed_at` is set to the current
time whenever the incoming status is `complete` — regardless of the previously
stored status or of an already-set `completed_at` — and is left unchanged for
any other incoming status; a fresh insert always leaves `completed_at` unset. -/
theorem upsertSwap_completedAt :
    (∀ (table : List SwapRow) (now : Nat) (u : String) (s : ShiftStatus) (r : SwapRow),
      rowsFor s.shiftId table = [r] →
      ∃ r', rowsFor s.shiftId (upsertSwap now u s table) = [r']
        ∧ r'.completedAt = (if s.status = "complete" then some now else r.completedAt)
        ∧ r'.status = s.status ∧ r'.createdAt = r.createdAt)
    ∧ (∀ (table : List SwapRow) (now : Nat) (u : String) (s : ShiftStatus),
      (∀ r ∈ table, r.shiftId ≠ s.shiftId) →
      ∃ r', rowsFor s.shiftId (upsertSwap now u s table) = [r']
        ∧ r'.completedAt = none) := by
  constructor
  · intro table now u s r hr
    rw [upsert_update (any_of_rowsFor_eq_cons hr), rowsFor_map_conflictUpdate, hr]
    exact ⟨conflictUpdate now s r, rfl, rfl, rfl, rfl⟩
  · intro table now u s h
    rw [upsert_insert h, rowsFor_append, rowsFor_eq_nil h]
    refine ⟨insertRow now u s, ?_, rfl⟩
    simp [rowsFor, insertRow]

/-- C2 amended witness: in the concrete counterexample tables, the upsert at
time 3 with incoming status `complete` rewrites `completed_at` to 3 even
though the stored status is already `complete`, and the initial insert leaves
`completed_at` unset. -/
theorem upsertSwap_completedAt_witness :
    (∃ r', rowsFor (sampleShift "complete").shiftId
        (upsertSwap 3 "alice" (sampleShift "complete") c2Table2) = [r']
      ∧ r'.completedAt = (if (sampleShift "complete").status = "complete"
          then some 3 else (conflictUpdate 2 (sampleShift "complete")
            (insertRow 1 "alice" (sampleShift "awaiting_deposit"))).completedAt)
      ∧ r'.status = (sampleShift "complete").status
      ∧ r'.createdAt = (conflictUpdate 2 (sampleShift "complete")
          (insertRow 1 "alice" (sampleShift "awaiting_deposit"))).createdAt)
    ∧ (∃ r', rowsFor (sampleShift "awaiting_deposit").shiftId
        (upsertSwap 1 "alice" (sampleShift "awaiting_deposit") []) = [r']
      ∧ r'.completedAt = none) := by
  constructor
  · exact upsertSwap_completedAt.1 c2Table2 3 "alice" (sampleShift "complete")
      (conflictUpdate 2 (sampleShift "complete")
        (insertRow 1 "alice" (sampleShift "awaiting_deposit"))) (by decide)
  · exact upsertSwap_completedAt.2 [] 1 "alice" (sampleShift "awaiting_deposit")
      (by intro r hr; cases hr)

/-! ## Exchange gateway client

The transport underneath one axios call either yields a parsed payload, fails
at the network layer with a Node error code (`error.code`), or yields an HTTP
error response (`error.response.status`).  A call sequence is modelled as a
function from the 1-based attempt number to that attempt's outcome. -/

inductive TransportFailure where
  | netError (code : String)
  | httpError (status : Nat) (message : String)
deriving Repr, DecidableEq

deriving instance DecidableEq for Except

inductive GatewayError where
  | notConfigured
  | cannotConnect
  | authFailed (message : String)
  | invalidParams (message : String)
  | pairNotAvailable
  | upstreamError (message : String)
  | timeout
  | dnsFailure
  | connectFailure
  | apiError (status : Nat) (message : String)
  | exhausted (message : String)
  | generic (message : String)
deriving Repr, DecidableEq

def maxRetries : Nat := 3

/-- The error codes treated as retryable by `getSupportedTokens`
(swapService.ts line 554). -/
def retryableCode (code : String) : Bool :=
  code == "ENOTFOUND" || code == "ECONNREFUSED" || code == "ETIMEDOUT"
    || code == "EAI_AGAIN" || code == "ECONNRESET"

def isTransient : TransportFailure → Bool
  | .netError code => retryableCode code
  | .httpError _ _ => false

/-- `Math.min(1000 * Math.pow(2, attempt - 1), 5000)` (swapService.ts 555). -/
def backoffMs (attempt : Nat) : Nat := min (1000 * 2 ^ (attempt - 1)) 5000

/-- Final-attempt error translation of `getSupportedTokens`
(swapService.ts 572-581). -/
def tokensTranslate : TransportFailure → GatewayError
  | .netError code =>
      if code == "ENOTFOUND" || code == "EAI_AGAIN" then .dnsFailure
      else if code == "ECONNREFUSED" || code == "ETIMEDOUT" || code == "ECONNRESET" then
        .connectFailure
      else .exhausted code
  | .httpError status message => .apiError status message

/-- The retry loop of `getSupportedTokens` (swapService.ts 472-584), with the
payload-processing of a successful response abstracted into the transport's
success value.  The loop runs over the attempt numbers still to go; alongside
the result it returns the list of backoff waits performed.  Mirrors the source
control flow exactly: on a caught error, (1) if the error code is retryable
and attempts remain, back off and continue; (2) otherwise, if this was the
last attempt, throw the translated error; (3) otherwise fall off the end of
the catch block — the loop silently moves to the next attempt with no backoff. -/
def tokensTry {α : Type} (transport : Nat → Except TransportFailure α) :
    List Nat → List Nat → (Except GatewayError α) × List Nat
  | [], waits => (.error (.exhausted "Unknown error"), waits.reverse)
  | attempt :: rest, waits =>
    match transport attempt with
    | .ok v => (.ok v, waits.reverse)
    | .error e =>
      if isTransient e = true ∧ attempt < maxRetries then
        tokensTry transport rest (backoffMs attempt :: waits)
      else if attempt = maxRetries then
        (.error (tokensTranslate e), waits.reverse)
      else
        tokensTry transport rest waits

/-- `getSupportedTokens` (swapService.ts 462-588): a configured-secret guard,
then the bounded retry loop over attempts 1..3. -/
def getSupportedTokens {α : Type} (hasSecret : Bool)
    (transport : Nat → Except TransportFailure α) :
    (Except GatewayError α) × List Nat :=
  if hasSecret then tokensTry transport (List.range' 1 maxRetries) []
  else (.error .notConfigured, [])

/-- Error translation of `getSwapQuote`'s catch block (swapService.ts 300-367),
with the human-readable message formatting abstracted to the carried message. -/
def quoteTranslate : TransportFailure → GatewayError
  | .netError code =>
      if code == "ENOTFOUND" || code == "ECONNREFUSED" || code == "ETIMEDOUT" then
        .cannotConnect
      else if code == "ECONNABORTED" then .timeout
      else .generic code
  | .httpError status message =>
      if status == 401 || status == 403 then .authFailed message
      else if status == 400 then .invalidParams message
      else if status == 404 then .pairNotAvailable
      else if status == 500 then .upstreamError message
      else .generic message

/-- `getSwapQuote` (swapService.ts 197-368): a configured-secret guard and a
single transport attempt — the body contains no retry loop; any failure is
translated and thrown immediately. (`createShift` and `getShiftStatus`,
lines 376-456, have the same single-attempt shape.) -/
def getSwapQuote {α : Type} (hasSecret : Bool)
    (transport : Nat → Except TransportFailure α) : Except GatewayError α :=
  if hasSecret then
    match transport 1 with
    | .ok v => .ok v
    | .error e => .error (quoteTranslate e)
  else .error .notConfigured

/-- A quote transport that fails with a timeout on the first two attempts and
would succeed on the third. -/
def c3Transport : Nat → Except TransportFailure Nat :=
  fun n => if n ≤ 2 then .error (.netError "ETIMEDOUT") else .ok 42

/-- C3 counterexample: the claim says every gateway call — `GetQuote` in
particular — retries up to 3 times, so a transport failing transiently on
attempts 1 and 2 and succeeding on attempt 3 yields the successful quote; but
`getSwapQuote` makes a single attempt and surfaces the connection error
immediately. -/
theorem getSwapQuote_does_not_retry :
    getSwapQuote true c3Transport = .error .cannotConnect
    ∧ getSwapQuote true c3Transport ≠ .ok 42 := by
  decide

/-- C3 amended: only `getSupportedTokens` wraps its transport in the bounded
3-attempt retry loop with exponential backoff (1000ms then 2000ms for the
first two transient failures): if the transport fails transiently on attempts
1 and 2 and succeeds on attempt 3, it returns the successful result.
`getSwapQuote` makes exactly one transport attempt (its result depends only on
attempt 1), and `getSupportedTokens` never looks beyond attempt 3. -/
theorem gateway_retry_policy :
    (∀ (α : Type) (transport : Nat → Except TransportFailure α) (v : α),
      (∃ e1, transport 1 = .error e1 ∧ isTransient e1 = true) →
      (∃ e2, transport 2 = .error e2 ∧ isTransient e2 = true) →
      transport 3 = .ok v →
      getSupportedTokens true transport = (.ok v, [1000, 2000]))
    ∧ (∀ (α : Type) (t1 t2 : Nat → Except TransportFailure α) (hs : Bool),
      t1 1 = t2 1 → getSwapQuote hs t1 = getSwapQuote hs t2)
    ∧ (∀ (α : Type) (t1 t2 : Nat → Except TransportFailure α) (hs : Bool),
      (∀ n, 1 ≤ n → n ≤ 3 → t1 n = t2 n) →
      getSupportedTokens hs t1 = getSupportedTokens hs t2) := by
  refine ⟨?_, ?_, ?_⟩
  · rintro α transport v ⟨e1, he1, ht1⟩ ⟨e2, he2, ht2⟩ h3
    have hrange : List.range' 1 maxRetries = [1, 2, 3] := rfl
    simp only [getSupportedTokens, if_true, hrange]
    simp [tokensTry, he1, he2, h3, ht1, ht2, maxRetries, backoffMs]
  · intro α t1 t2 hs h
    simp only [getSwapQuote, h]
  · intro α t1 t2 hs h
    have h1 := h 1 (by decide) (by decide)
    have h2 := h 2 (by decide) (by decide)
    have h3 := h 3 (by decide) (by decide)
    have hrange : List.range' 1 maxRetries = [1, 2, 3] := rfl
    simp only [getSupportedTokens, hrange, tokensTry, h1, h2, h3]

/-- A tokens transport failing with DNS then connection-reset errors before
succeeding on the third attempt. -/
def c3TokensTransport : Nat → Except TransportFailure Nat :=
  fun n => if n = 1 then .error (.netError "ENOTFOUND")
    else if n = 2 then .error (.netError "ECONNRESET")
    else .ok 7

/-- A quote transport agreeing with `c3Transport` on attempt 1 only. -/
def c3QuoteAlt : Nat → Except TransportFailure Nat :=
  fun n => if n = 1 then .error (.netError "ETIMEDOUT") else .ok 0

/-- A tokens transport agreeing with `c3TokensTransport` on attempts 1..3 only. -/
def c3TokensAlt : Nat → Except TransportFailure Nat :=
  fun n => if n ≤ 3 then c3TokensTransport n else .ok 0

/-- C3 witness: the amended retry policy applied to concrete transports. -/
theorem gateway_retry_policy_witness :
    getSupportedTokens true c3TokensTransport = (.ok 7, [1000, 2000])
    ∧ getSwapQuote true c3Transport = getSwapQuote true c3QuoteAlt
    ∧ getSupportedTokens true c3TokensTransport = getSupportedTokens true c3TokensAlt := by
  refine ⟨?_, ?_, ?_⟩
  · exact gateway_retry_policy.1 Nat c3TokensTransport 7
      ⟨.netError "ENOTFOUND", rfl, rfl⟩ ⟨.netError "ECONNRESET", rfl, rfl⟩ rfl
  · exact gateway_retry_policy.2.1 Nat c3Transport c3QuoteAlt true rfl
  · exact gateway_retry_policy.2.2 Nat c3TokensTransport c3TokensAlt true
      (by intro n h1 h3; simp [c3TokensAlt, h3])

/-- A transport whose first attempt is rejected with HTTP 400 and whose second
attempt succeeds. -/
def c4Transport : Nat → Except TransportFailure Nat :=
  fun n => if n = 1 then .error (.httpError 400 "Bad Request") else .ok 99

/-- C4 (code bug): a 400-class rejection on the first attempt of
`getSupportedTokens` is silently retried — neither catch branch fires
(the error code is not retryable, and it is not the last attempt), so the loop
moves on and returns the second attempt's success with no backoff wait —
although the code's own comment says a non-retryable error throws.
`getSwapQuote`, by contrast, surfaces the 400 immediately. -/
theorem tokens_400_is_retried :
    getSupportedTokens true c4Transport = (.ok 99, [])
    ∧ getSwapQuote true c4Transport = .error (.invalidParams "Bad Request") := by
  decide

/-! ## Realtime broker (WebSocketService, src/unnamed/part_007)

The registry is the `clients` map: per connection an identifier, the socket
(modelled by its open/closed state), an optional authenticated user, an
optional wallet address, and the subscription set.  A delivery primitive
returns the list of (clientId, message) pairs actually written to sockets. -/

structure ClientConnection where
  clientId : String
  isOpen : Bool
  userId : Option String
  walletAddress : Option String
  subscriptions : List String
deriving Repr, DecidableEq

inductive OutMsg where
  | broadcastMsg (channel : String) (data : String)
  | directMsg (data : String)
deriving Repr, DecidableEq

/-- `send` (part_007 lines 165-169): the payload is written only when
`ws.readyState === WebSocket.OPEN`. -/
def sendTo (c : ClientConnection) (m : OutMsg) : List (String × OutMsg) :=
  if c.isOpen then [(c.clientId, m)] else []

/-- `broadcast(channel, data)` (part_007 lines 123-137): every registered
connection whose subscription set contains the channel is sent a
`broadcast`-typed message carrying the channel and payload. -/
def broadcast (channel : String) (data : String) (clients : List ClientConnection) :
    List (String × OutMsg) :=
  clients.flatMap (fun c =>
    if c.subscriptions.contains channel then sendTo c (.broadcastMsg channel data) else [])

/-- `sendToUser(userId, data)` (part_007 lines 140-150): every registered
connection whose authenticated user equals the target identity is sent a
`message`-typed payload; subscriptions are not consulted. -/
def sendToUser (userId : String) (data : String) (clients : List ClientConnection) :
    List (String × OutMsg) :=
  clients.flatMap (fun c =>
    if c.userId = some userId then sendTo c (.directMsg data) else [])

/-- C6: every open connection subscribed to the channel receives the broadcast
message carrying that channel and payload, and a connection not subscribed to
the channel receives nothing from the broadcast (client identifiers are the
keys of the registry map, hence pairwise distinct). -/
theorem broadcast_subscription_delivery
    (clients : List ClientConnection) (channel data : String) (c : ClientConnection)
    (hmem : c ∈ clients) (hids : (clients.map ClientConnection.clientId).Nodup) :
    (c.isOpen = true → c.subscriptions.contains channel = true →
      (c.clientId, OutMsg.broadcastMsg channel data) ∈ broadcast channel data clients)
    ∧ (c.subscriptions.contains channel = false →
      ∀ m, (c.clientId, m) ∉ broadcast channel data clients) := by
  constructor
  · intro hopen hsub
    refine List.mem_flatMap.2 ⟨c, hmem, ?_⟩
    rw [if_pos hsub]
    unfold sendTo
    rw [if_pos hopen]
    exact List.mem_singleton.2 rfl
  · intro hsub m hm
    obtain ⟨c', hc', hm'⟩ := List.mem_flatMap.1 hm
    by_cases hsub' : c'.subscriptions.contains channel = true
    · rw [if_pos hsub'] at hm'
      unfold sendTo at hm'
      by_cases hopen' : c'.isOpen = true
      · rw [if_pos hopen'] at hm'
        have hpair : (c.clientId, m) = (c'.clientId, OutMsg.broadcastMsg channel data) :=
          List.mem_singleton.1 hm'
        have hid : c'.clientId = c.clientId := (congrArg Prod.fst hpair).symm
        have hceq : c' = c := List.inj_on_of_nodup_map hids hc' hmem hid
        rw [hceq] at hsub'
        rw [hsub'] at hsub
        cases hsub
      · rw [if_neg hopen'] at hm'
        cases hm'
    · rw [if_neg hsub'] at hm'
      cases hm'

/-- C6 witness connections: one subscribed to `swap:abc`, one to `swap:xyz`. -/
def connA : ClientConnection :=
  { clientId := "client-a", isOpen := true, userId := some "user-1",
    walletAddress := none, subscriptions := ["swap:abc"] }

def connB : ClientConnection :=
  { clientId := "client-b", isOpen := true, userId := some "user-2",
    walletAddress := none, subscriptions := ["swap:xyz"] }

/-- C6 witness: broadcasting on `swap:abc` reaches the subscriber and not the
connection subscribed only to `swap:xyz`. -/
theorem broadcast_subscription_delivery_witness :
    ("client-a", OutMsg.broadcastMsg "swap:abc" "hello")
      ∈ broadcast "swap:abc" "hello" [connA, connB]
    ∧ ("client-b", OutMsg.broadcastMsg "swap:abc" "hello")
      ∉ broadcast "swap:abc" "hello" [connA, connB] := by
  constructor
  · exact (broadcast_subscription_delivery [connA, connB] "swap:abc" "hello" connA
      (by simp) (by decide)).1 rfl rfl
  · exact (broadcast_subscription_delivery [connA, connB] "swap:abc" "hello" connB
      (by simp) (by decide)).2 rfl _

/-- C7: an identity-targeted send reaches every open connection authenticated
as that identity and no other connection, and its deliveries are independent
of the connections' subscription sets. -/
theorem sendToUser_identity_delivery
    (clients : List ClientConnection) (uid data : String) (c : ClientConnection)
    (hmem : c ∈ clients) (hids : (clients.map ClientConnection.clientId).Nodup) :
    (c.isOpen = true → c.userId = some uid →
      (c.clientId, OutMsg.directMsg data) ∈ sendToUser uid data clients)
    ∧ (c.userId ≠ some uid →
      ∀ m, (c.clientId, m) ∉ sendToUser uid data clients)
    ∧ (∀ f : ClientConnection → List String,
      sendToUser uid data (clients.map (fun x => { x with subscriptions := f x }))
        = sendToUser uid data clients) := by
  refine ⟨?_, ?_, ?_⟩
  · intro hopen huser
    refine List.mem_flatMap.2 ⟨c, hmem, ?_⟩
    rw [if_pos huser]
    unfold sendTo
    rw [if_pos hopen]
    exact List.mem_singleton.2 rfl
  · intro huser m hm
    obtain ⟨c', hc', hm'⟩ := List.mem_flatMap.1 hm
    by_cases huser' : c'.userId = some uid
    · rw [if_pos huser'] at hm'
      unfold sendTo at hm'
      by_cases hopen' : c'.isOpen = true
      · rw [if_pos hopen'] at hm'
        have hpair : (c.clientId, m) = (c'.clientId, OutMsg.directMsg data) :=
          List.mem_singleton.1 hm'
        have hid : c'.clientId = c.clientId := (congrArg Prod.fst hpair).symm
        have hceq : c' = c := List.inj_on_of_nodup_map hids hc' hmem hid
        rw [hceq] at huser'
        exact huser huser'
      · rw [if_neg hopen'] at hm'
        cases hm'
    · rw [if_neg huser'] at hm'
      cases hm'
  · intro f
    simp only [sendToUser, List.flatMap_map]
    congr 1

/-- C7 witness: a direct send to `user-1` reaches its connection and not the
connection authenticated as `user-2`, even though both hold unrelated
subscriptions; stripping all subscriptions does not change the deliveries. -/
theorem sendToUser_identity_delivery_witness :
    ("client-a", OutMsg.directMsg "note") ∈ sendToUser "user-1" "note" [connA, connB]
    ∧ ("client-b", OutMsg.directMsg "note") ∉ sendToUser "user-1" "note" [connA, connB]
    ∧ sendToUser "user-1" "note"
        ([connA, connB].map (fun x => { x with subscriptions := [] }))
      = sendToUser "user-1" "note" [connA, connB] := by
  refine ⟨?_, ?_, ?_⟩
  · exact (sendToUser_identity_delivery [connA, connB] "user-1" "note" connA
      (by simp) (by decide)).1 rfl rfl
  · exact (sendToUser_identity_delivery [connA, connB] "user-1" "note" connB
      (by simp) (by decide)).2.1 (by decide) _
  · exact (sendToUser_identity_delivery [connA, connB] "user-1" "note" connA
      (by simp) (by decide)).2.2 (fun _ => [])

/-! ## Status refresh (GET /api/swap/status/:shiftId, routes/swap.ts 141-167)

The handler calls `swapService.getShiftStatus(shiftId)` — a plain fetch from
the exchange (swapService.ts 441-456) — and returns the result.  Its body
contains no database access and no websocket call. -/

structure StatusRefreshResult where
  response : Except String ShiftStatus
  table : List SwapRow
  deliveries : List (String × OutMsg)
deriving Repr, DecidableEq

/-- The GET /status/:shiftId handler: on a successful fetch the status is
returned as-is; on a failed fetch a failure response is produced.  In both
cases the swap table is untouched and nothing is sent to any connection. -/
def getStatusHandler (fetched : Except String ShiftStatus) (table : List SwapRow) :
    StatusRefreshResult :=
  match fetched with
  | .ok st => { response := .ok st, table := table, deliveries := [] }
  | .error e => { response := .error e, table := table, deliveries := [] }

/-- The stored record of shift "shift-1", inserted with status
"awaiting_deposit" at time 1. -/
def storedAwaitingRow : SwapRow := insertRow 1 "alice" (sampleShift "awaiting_deposit")

/-- C5 counterexample: a refresh that fetches status `complete` for a shift
stored as `awaiting_deposit` — the statuses differ, yet the handler persists
nothing (the stored status is still `awaiting_deposit` afterwards) and emits
no status-change event, contradicting the claimed compare-persist-emit
behaviour. -/
theorem statusRefresh_differs_no_persist_no_event :
    (sampleShift "complete").status ≠ storedAwaitingRow.status
    ∧ (getStatusHandler (.ok (sampleShift "complete")) [storedAwaitingRow]).table
        = [storedAwaitingRow]
    ∧ (getStatusHandler (.ok (sampleShift "complete")) [storedAwaitingRow]).deliveries = []
    ∧ (rowsFor "shift-1"
        (getStatusHandler (.ok (sampleShift "complete")) [storedAwaitingRow]).table).map
          SwapRow.status = ["awaiting_deposit"] := by
  decide

/-- C5 amended: every status refresh simply returns the freshly fetched
status; it never compares it with the stored status, never writes to the swap
store, and never emits an event — in particular (and only in this respect the
original claim holds) refreshing an unchanged shift is a no-op. -/
theorem statusRefresh_pure_fetch (fetched : Except String ShiftStatus)
    (table : List SwapRow) :
    (getStatusHandler fetched table).response = fetched
    ∧ (getStatusHandler fetched table).table = table
    ∧ (getStatusHandler fetched table).deliveries = [] := by
  cases fetched <;> exact ⟨rfl, rfl, rfl⟩

/-! ## Shift creation (POST /api/swap/shift, routes/swap.ts 73-135) -/

/-- `saveSwap` (swapService.ts 593-630): the upsert is attempted and any
database error is caught, logged and swallowed — the method returns normally
either way ("Don't throw - swap should still work even if DB save fails").
`dbWriteOk` models whether the underlying `db.query` call succeeds. -/
def saveSwap (now : Nat) (userId : String) (shift : ShiftStatus) (dbWriteOk : Bool)
    (table : List SwapRow) : Except String Unit × List SwapRow :=
  if dbWriteOk then (.ok (), upsertSwap now userId shift table)
  else (.ok (), table)

structure CreateShiftResult where
  success : Bool
  shift : Option ShiftStatus
  table : List SwapRow
deriving Repr, DecidableEq

/-- The POST /shift handler: field validation, the upstream `createShift`
call, then — only when `req.userId` is present (`optionalAuth`) — `saveSwap`;
the success response carries the created shift.  A rejection escaping any
awaited step inside the try block would instead produce the catch's failure
response. -/
def postShiftHandler (now : Nat) (userId : Option String)
    (quoteId settleAddress : Option String)
    (upstream : Except GatewayError ShiftStatus)
    (dbWriteOk : Bool) (table : List SwapRow) : CreateShiftResult :=
  match quoteId, settleAddress with
  | some _, some _ =>
    match upstream with
    | .ok shift =>
      match userId with
      | some uid =>
        match saveSwap now uid shift dbWriteOk table with
        | (.ok _, tableAfter) => { success := true, shift := some shift, table := tableAfter }
        | (.error _, tableAfter) => { success := false, shift := none, table := tableAfter }
      | none => { success := true, shift := some shift, table := table }
    | .error _ => { success := false, shift := none, table := table }
  | _, _ => { success := false, shift := none, table := table }

/-- C8: when the upstream shift creation succeeds and the subsequent
persistence write fails, `saveSwap` swallows the failure (it returns normally
and leaves the table as it was), and the user-facing creation call still
succeeds and returns the created shift. -/
theorem createShift_persist_failure_not_propagated
    (now : Nat) (uid q sa : String) (shift : ShiftStatus) (table : List SwapRow) :
    saveSwap now uid shift false table = (.ok (), table)
    ∧ (postShiftHandler now (some uid) (some q) (some sa) (.ok shift) false table).success
        = true
    ∧ (postShiftHandler now (some uid) (some q) (some sa) (.ok shift) false table).shift
        = some shift :=
  ⟨rfl, rfl, rfl⟩

/-- Insertion into a list sorted by descending creation time. -/
def historyInsert (r : SwapRow) : List SwapRow → List SwapRow
  | [] => [r]
  | x :: xs => if x.createdAt ≤ r.createdAt then r :: x :: xs else x :: historyInsert r xs

def sortByCreatedAtDesc : List SwapRow → List SwapRow
  | [] => []
  | x :: xs => historyInsert x (sortByCreatedAtDesc xs)

/-- `getSwapHistory` (swapService.ts 635-667):
`SELECT * FROM swaps WHERE user_id = $1 ORDER BY created_at DESC
LIMIT $2 OFFSET $3`. -/
def getSwapHistory (userId : String) (limit offset : Nat)
    (table : List SwapRow) : List SwapRow :=
  ((sortByCreatedAtDesc (table.filter (fun r => r.userId == userId))).drop offset).take limit

/-- C10: a shift creation without an authenticated user identifier returns the
created shift but performs no write to the swap store: the table — and hence
every user's history listing — is unchanged. -/
theorem createShift_anonymous_no_write
    (now : Nat) (q sa : String) (shift : ShiftStatus) (dbWriteOk : Bool)
    (table : List SwapRow) :
    (postShiftHandler now none (some q) (some sa) (.ok shift) dbWriteOk table).success = true
    ∧ (postShiftHandler now none (some q) (some sa) (.ok shift) dbWriteOk table).shift
        = some shift
    ∧ (postShiftHandler now none (some q) (some sa) (.ok shift) dbWriteOk table).table = table
    ∧ ∀ uid limit offset,
        getSwapHistory uid limit offset
          (postShiftHandler now none (some q) (some sa) (.ok shift) dbWriteOk table).table
          = getSwapHistory uid limit offset table :=
  ⟨rfl, rfl, rfl, fun _ _ _ => rfl⟩

/-! ## Cache port (CacheService, src/unnamed/part_008) -/

structure CacheState where
  hasClient : Bool
  isConnected : Bool
deriving Repr, DecidableEq

/-- The guard `!this.client || !this.isConnected` opening every cache method:
the cache is disabled when the client was never created (no REDIS_URL, or
connection gave up) or is not currently connected. -/
def cacheDisabled (s : CacheState) : Bool := !s.hasClient || !s.isConnected

/-- `get` (part_008 lines 62-77): disabled → null; otherwise the redis read
plus JSON.parse (modelled as one fallible backend call) either yields the
value-or-absent result or throws — and a thrown error is caught and becomes
null. -/
def cacheGet (s : CacheState) (backend : String → Except String (Option String))
    (key : String) : Except String (Option String) :=
  if cacheDisabled s then .ok none
  else match backend key with
    | .ok v => .ok v
    | .error _ => .ok none

/-- `set` (part_008 lines 79-96): disabled → false; otherwise the setEx/set
call either succeeds (true) or throws — and a thrown error is caught and
becomes false. -/
def cacheSet (s : CacheState)
    (backend : String → String → Option Nat → Except String Unit)
    (key value : String) (ttlSeconds : Option Nat) : Except String Bool :=
  if cacheDisabled s then .ok false
  else match backend key value ttlSeconds with
    | .ok _ => .ok true
    | .error _ => .ok false

/-- `del` (part_008 lines 98-110): same shape as `set`. -/
def cacheDel (s : CacheState) (backend : String → Except String Unit)
    (key : String) : Except String Bool :=
  if cacheDisabled s then .ok false
  else match backend key with
    | .ok _ => .ok true
    | .error _ => .ok false

/-- C9: with the cache disabled, every `get` returns the value-level absent
result and every `set`/`del` reports failure; when a backend call throws (the
cache is unreachable), the error is swallowed the same way; and no cache
operation ever surfaces an exception — each one returns a value for every
state, key, value and backend. -/
theorem cache_degrades_to_absent
    (s : CacheState) (gb : String → Except String (Option String))
    (sb : String → String → Option Nat → Except String Unit)
    (rb : String → Except String Unit) (key value : String) (ttl : Option Nat) :
    (cacheDisabled s = true →
      cacheGet s gb key = .ok none
      ∧ cacheSet s sb key value ttl = .ok false
      ∧ cacheDel s rb key = .ok false)
    ∧ (∀ msg, gb key = .error msg → cacheGet s gb key = .ok none)
    ∧ (∀ msg, sb key value ttl = .error msg → cacheSet s sb key value ttl = .ok false)
    ∧ (∀ msg, rb key = .error msg → cacheDel s rb key = .ok false)
    ∧ (∃ r, cacheGet s gb key = .ok r)
    ∧ (∃ b, cacheSet s sb key value ttl = .ok b)
    ∧ (∃ b, cacheDel s rb key = .ok b) := by
  refine ⟨?_, ?_, ?_, ?_, ?_, ?_, ?_⟩
  · intro h
    exact ⟨by simp [cacheGet, h], by simp [cacheSet, h], by simp [cacheDel, h]⟩
  · intro msg hmsg
    by_cases h : cacheDisabled s = true
    · simp [cacheGet, h]
    · simp [cacheGet, h, hmsg]
  · intro msg hmsg
    by_cases h : cacheDisabled s = true
    · simp [cacheSet, h]
    · simp [cacheSet, h, hmsg]
  · intro msg hmsg
    by_cases h : cacheDisabled s = true
    · simp [cacheDel, h]
    · simp [cacheDel, h, hmsg]
  · by_cases h : cacheDisabled s = true
    · exact ⟨none, by simp [cacheGet, h]⟩
    · cases hb : gb key with
      | ok v => exact ⟨v, by simp [cacheGet, h, hb]⟩
      | error e => exact ⟨none, by simp [cacheGet, h, hb]⟩
  · by_cases h : cacheDisabled s = true
    · exact ⟨false, by simp [cacheSet, h]⟩
    · cases hb : sb key value ttl with
      | ok v => exact ⟨true, by simp [cacheSet, h, hb]⟩
      | error e => exact ⟨false, by simp [cacheSet, h, hb]⟩
  · by_cases h : cacheDisabled s = true
    · exact ⟨false, by simp [cacheDel, h]⟩
    · cases hb : rb key with
      | ok v => exact ⟨true, by simp [cacheDel, h, hb]⟩
      | error e => exact ⟨false, by simp [cacheDel, h, hb]⟩

/-- C9 witness: a created-but-disconnected cache state with a backend that
always throws — `get` yields absent, `set` and `del` yield false — and a
connected state whose backend throws degrades the same way. -/
theorem cache_degrades_to_absent_witness :
    cacheGet ⟨true, false⟩ (fun _ => .error "down") "k" = .ok none
    ∧ cacheSet ⟨true, false⟩ (fun _ _ _ => .error "down") "k" "v" (some 60) = .ok false
    ∧ cacheDel ⟨true, false⟩ (fun _ => .error "down") "k" = .ok false
    ∧ cacheGet ⟨true, true⟩ (fun _ => .error "down") "k" = .ok none := by
  refine ⟨?_, ?_, ?_, ?_⟩
  · exact ((cache_degrades_to_absent ⟨true, false⟩ (fun _ => .error "down")
      (fun _ _ _ => .error "down") (fun _ => .error "down") "k" "v" (some 60)).1
        (by decide)).1
  · exact ((cache_degrades_to_absent ⟨true, false⟩ (fun _ => .error "down")
      (fun _ _ _ => .error "down") (fun _ => .error "down") "k" "v" (some 60)).1
        (by decide)).2.1
  · exact ((cache_degrades_to_absent ⟨true, false⟩ (fun _ => .error "down")
      (fun _ _ _ => .error "down") (fun _ => .error "down") "k" "v" (some 60)).1
        (by decide)).2.2
  · exact (cache_degrades_to_absent ⟨true, true⟩ (fun _ => .error "down")
      (fun _ _ _ => .error "down") (fun _ => .error "down") "k" "v" (some 60)).2.1
        "down" rfl

end AutoXShift
